import Mathlib

/-!
Formal model of the realtime voice-agent client
(`src/agent_websocket.py`, `src/audio.py`).

The development shallowly embeds the parts of the program that carry
state and logic:

* a JSON value model for protocol envelopes (`json.loads` results and
  outbound `json.dumps` arguments);
* the standard base64 alphabet encode/decode used on audio payloads
  (`base64.b64encode` / `base64.b64decode`);
* `AudioHandler` from `src/audio.py` (recording state, audio buffer,
  stream lifecycle) with the capture-device read supplied as an oracle
  argument;
* the `RealTimeAgent.__on_message` inbound dispatch from
  `src/agent_websocket.py` as a function from handler state and a raw
  message to `Except` (a Python exception becomes `Except.error`);
* the `RealTimeAgent.__listen` capture loop, with the transport's
  `ws.send` modelled from the spec (the websocket library is an external
  collaborator);
* the fire-and-forget playback threads of `AudioHandler.play_audio` as a
  nondeterministic scheduler relation.

Bytes are modelled as `List Nat` with values below 256 where it matters.
-/

/-- JSON values as far as the protocol envelopes need them: strings and
objects. Any other JSON shape plays no role in the dispatch logic other
than "not a string", which `Json.obj` already represents. -/
inductive Json where
  | str : String → Json
  | obj : List (String × Json) → Json

/-- Field lookup in a JSON object's association list: first binding of the
key wins, as in a Python dict built by `json.loads` (keys are unique). -/
def lookupField : List (String × Json) → String → Option Json
  | [], _ => none
  | (k, v) :: rest, key => if k = key then some v else lookupField rest key

/-- Python's `event["key"]` on a decoded JSON value: `some` when `event` is
an object with the key, `none` when the subscript would raise
(`KeyError` / `TypeError`). -/
def Json.getField : Json → String → Option Json
  | Json.obj fields, key => lookupField fields key
  | _, _ => none

/-! ## Base64 (`base64.b64encode` / `base64.b64decode`) -/

/-- The standard base64 alphabet, as used by `base64.b64encode`. -/
def b64Alphabet : List Char :=
  "ABCDEFGHIJKLMNOPQRSTUVWXYZabcdefghijklmnopqrstuvwxyz0123456789+/".toList

/-- The character for a six-bit group (only meaningful for `n < 64`). -/
def sextetToChar (n : Nat) : Char := b64Alphabet.getD n '='

/-- Index search in the alphabet, used by decoding. -/
def charToSextetAux : List Char → Char → Nat → Option Nat
  | [], _, _ => none
  | a :: rest, c, i => if a = c then some i else charToSextetAux rest c (i + 1)

/-- The six-bit value of an alphabet character, `none` for characters
outside the alphabet. -/
def charToSextet (c : Char) : Option Nat := charToSextetAux b64Alphabet c 0

/-- Base64 encoding of a byte list, including `'='` padding, exactly as
`base64.b64encode` produces it (`a / 4` is `a >> 2`, `a % 4 * 16` is
`(a & 3) << 4`, and so on). -/
def b64EncodeAux : List Nat → List Char
  | [] => []
  | [a] => [sextetToChar (a / 4), sextetToChar (a % 4 * 16), '=', '=']
  | [a, b] => [sextetToChar (a / 4), sextetToChar (a % 4 * 16 + b / 16),
      sextetToChar (b % 16 * 4), '=']
  | a :: b :: c :: rest =>
      sextetToChar (a / 4) :: sextetToChar (a % 4 * 16 + b / 16) ::
      sextetToChar (b % 16 * 4 + c / 64) :: sextetToChar (c % 64) ::
      b64EncodeAux rest

/-- Base64 decoding of a character list: `none` models `base64.b64decode`
raising on input that is not well-formed base64. -/
def b64DecodeAux : List Char → Option (List Nat)
  | [] => some []
  | c1 :: c2 :: c3 :: c4 :: rest =>
    match charToSextet c1, charToSextet c2 with
    | some s1, some s2 =>
      if c3 = '=' then
        if c4 = '=' ∧ rest = [] then some [s1 * 4 + s2 / 16] else none
      else
        match charToSextet c3 with
        | some s3 =>
          if c4 = '=' then
            if rest = [] then some [s1 * 4 + s2 / 16, s2 % 16 * 16 + s3 / 4]
            else none
          else
            match charToSextet c4 with
            | some s4 =>
              match b64DecodeAux rest with
              | some tail =>
                  some ((s1 * 4 + s2 / 16) :: (s2 % 16 * 16 + s3 / 4) ::
                    (s3 % 4 * 64 + s4) :: tail)
              | none => none
            | none => none
        | none => none
    | _, _ => none
  | _ => none

/-! ## `AudioHandler` (`src/audio.py`)

The pyaudio device is an external collaborator (spec section 6): opening a
stream yields a live handle, stopping and closing it deactivates it.  A
stream object is modelled as `Option Bool`: `none` is Python `None` (no
stream object yet), `some true` an open stream, `some false` a stream that
has been stopped and closed (the Python attribute keeps pointing at the
closed object, which is still truthy).  The device read is supplied as an
oracle argument to `record_chunk`. -/

structure AudioHandler where
  stream : Option Bool
  audio_buffer : List Nat
  chunk_size : Nat
  is_recording : Bool
deriving DecidableEq

/-- The freshly constructed handler (`AudioHandler.__init__`). -/
def initAudioHandler : AudioHandler :=
  { stream := none, audio_buffer := [], chunk_size := 1024, is_recording := false }

/-- `AudioHandler.start_audio_stream`: opens a fresh input stream. -/
def start_audio_stream (h : AudioHandler) : AudioHandler :=
  { h with stream := some true }

/-- `AudioHandler.stop_audio_stream`: when a stream object exists, stop and
close it; otherwise do nothing. -/
def stop_audio_stream (h : AudioHandler) : AudioHandler :=
  match h.stream with
  | none => h
  | some _ => { h with stream := some false }

/-- `AudioHandler.start_recording`: set the flag, clear the buffer, open the
stream (in the source's order). -/
def start_recording (h : AudioHandler) : AudioHandler :=
  start_audio_stream { h with is_recording := true, audio_buffer := [] }

/-- `AudioHandler.stop_recording`: clear the flag, stop the stream, return
the accumulated buffer. -/
def stop_recording (h : AudioHandler) : AudioHandler × List Nat :=
  let h1 := { h with is_recording := false }
  (stop_audio_stream h1, h1.audio_buffer)

/-- `AudioHandler.record_chunk` with the bytes the device read would return
passed in as `data`: when a stream object exists (truthy, even if closed)
and recording is on, append to the buffer and return the data, else return
`None`. -/
def record_chunk (h : AudioHandler) (data : List Nat) : AudioHandler × Option (List Nat) :=
  if h.stream.isSome ∧ h.is_recording then
    ({ h with audio_buffer := h.audio_buffer ++ data }, some data)
  else (h, none)

/-- Repeated `record_chunk` calls over a list of device reads, collecting
the returned values. -/
def runRecord (h : AudioHandler) : List (List Nat) → AudioHandler × List (Option (List Nat))
  | [] => (h, [])
  | d :: ds =>
    let hr := record_chunk h d
    let rest := runRecord hr.1 ds
    (rest.1, hr.2 :: rest.2)

/-! ## Playback (`AudioHandler.play_audio`)

`play_audio` starts one detached thread per call; the thread opens an
output stream, writes the buffer and closes the stream.  Submissions are
recorded in spawn order in `pending`; the operating system scheduler may
run the pending playback threads in any order, modelled by the
`PlaybackStep` relation appending to `played` (device write order). -/

structure SinkModel where
  pending : List (List Nat)
  played : List (List Nat)
deriving DecidableEq

/-- `AudioHandler.play_audio`: spawn a detached playback thread for the
buffer (fire-and-forget; no join, no queue shared with other calls). -/
def play_audio (s : SinkModel) (audio_data : List Nat) : SinkModel :=
  { s with pending := s.pending ++ [audio_data] }

/-- One scheduler step: some pending playback thread runs to completion,
writing its buffer to the output device.  Nothing orders the threads, so
any pending index may run. -/
inductive PlaybackStep : SinkModel → SinkModel → Prop where
  | run : ∀ (s : SinkModel) (i : Nat) (hi : i < s.pending.length),
      PlaybackStep s
        { pending := s.pending.eraseIdx i,
          played := s.played ++ [s.pending.get ⟨i, hi⟩] }

/-! ## `RealTimeAgent.__on_message` (`src/agent_websocket.py`)

Handler state observable from the dispatch path: the `listen_event`
threading flag (set = the capture loop may forward mic audio, i.e.
LISTENING; cleared = BLOCKED), the sequence of buffers submitted to
`AudioHandler.play_audio` in call order, and the agent's (never written)
`audio_buffer` attribute.  A raw inbound websocket message either decodes
to a JSON value or is malformed (`json.loads` raises).  A Python exception
escaping the handler is `Except.error`. -/

structure AgentState where
  listenEventSet : Bool
  sinkWrites : List (List Nat)
  audioBuffer : List Nat
deriving DecidableEq

/-- Agent state right after `__on_open`: `listen_event.set()` has run, no
audio has been played. -/
def initState : AgentState :=
  { listenEventSet := true, sinkWrites := [], audioBuffer := [] }

/-- A raw inbound text message, by whether `json.loads` succeeds on it. -/
inductive RawMessage where
  | valid : Json → RawMessage
  | malformed : String → RawMessage

/-- `json.loads` on a raw message: the decoded value, or the
`json.JSONDecodeError` it raises. -/
def jsonLoads : RawMessage → Except String Json
  | RawMessage.valid j => Except.ok j
  | RawMessage.malformed s => Except.error ("JSONDecodeError: " ++ s)

/-- An event object carrying only a "type" field. -/
def mkEvent (t : String) : Json := Json.obj [("type", Json.str t)]

/-- A `response.audio.delta` event carrying a payload string. -/
def deltaEvent (d : String) : Json :=
  Json.obj [("type", Json.str "response.audio.delta"), ("delta", Json.str d)]

/-- The event type strings `__on_message` dispatches on. -/
def recognizedTypes : List String :=
  ["response.audio.delta", "response.audio.done", "response.done",
   "conversation.item.created", "input_audio_buffer.speech_started",
   "input_audio_buffer.speech_stopped", "session.created", "session.updated"]

/-- `RealTimeAgent.__on_message`, line by line: decode the message (no
try/except around `json.loads`), read `event["type"]`, then the if/elif
chain.  `response.audio.delta` decodes the payload and submits it to
`play_audio`; `response.done` sets `listen_event`;
`input_audio_buffer.speech_started` only logs;
`input_audio_buffer.speech_stopped` clears `listen_event`; every other
recognized type only logs; an unknown type is logged as unhandled.  A
non-string `event["type"]` compares unequal to every literal and also ends
in the unhandled branch. -/
def onMessage (st : AgentState) (msg : RawMessage) : Except String AgentState :=
  match jsonLoads msg with
  | Except.error e => Except.error e
  | Except.ok event =>
    match event.getField "type" with
    | none => Except.error "KeyError: type"
    | some (Json.obj _) => Except.ok st
    | some (Json.str t) =>
      if t = "response.audio.delta" then
        match event.getField "delta" with
        | some (Json.str d) =>
          match b64DecodeAux d.toList with
          | some audio_data =>
              Except.ok { st with sinkWrites := st.sinkWrites ++ [audio_data] }
          | none => Except.error "binascii.Error: invalid base64 payload"
        | _ => Except.error "KeyError: delta"
      else if t = "response.audio.done" then Except.ok st
      else if t = "response.done" then Except.ok { st with listenEventSet := true }
      else if t = "conversation.item.created" then Except.ok st
      else if t = "input_audio_buffer.speech_started" then Except.ok st
      else if t = "input_audio_buffer.speech_stopped" then
        Except.ok { st with listenEventSet := false }
      else if t = "session.created" then Except.ok st
      else if t = "session.updated" then Except.ok st
      else Except.ok st

/-- The "type" string a message carries, when it decodes to an object with
a string "type" field. -/
def msgType : RawMessage → Option String
  | RawMessage.malformed _ => none
  | RawMessage.valid j =>
    match j.getField "type" with
    | some (Json.str t) => some t
    | _ => none

/-- Dispatching a sequence of inbound messages in arrival order (the
websocket library invokes `__on_message` serially per message); an
uncaught exception aborts the run. -/
def processMessages (st : AgentState) : List RawMessage → Except String AgentState
  | [] => Except.ok st
  | m :: ms =>
    match onMessage st m with
    | Except.ok st' => processMessages st' ms
    | Except.error e => Except.error e

/-! ## Transport and the `__listen` capture loop

The websocket library is an external collaborator (spec sections 2 and 6):
`ws.send` transmits text when the connection is open and raises
`WebSocketConnectionClosedException` otherwise.  `Transport` records the
connection flag and, in place of the serialized `json.dumps` text, the
envelope values actually handed to `__send_event` (the serialization is
injective on these envelopes, so nothing is lost). -/

structure Transport where
  connOpen : Bool
  sent : List Json

/-- Modelled from the spec: the external transport collaborator's send —
"`send(envelope)`. Fails with `TransportError` if the connection is not
open"; on an open connection the envelope is transmitted (appended to
`sent`).  The websocket library itself is not part of this repository. -/
def wsSend (t : Transport) (envelope : Json) : Except String Transport :=
  if t.connOpen then Except.ok { t with sent := t.sent ++ [envelope] }
  else Except.error "TransportError: connection is not open"

/-- `RealTimeAgent.__send_event`: serialize the event and hand it to
`ws.send`. -/
def sendEvent (t : Transport) (event : Json) : Except String Transport :=
  wsSend t event

/-- The outbound audio envelope built inside `__listen`:
`{"type": "input_audio_buffer.append", "audio": base64_chunk}` where
`base64_chunk = base64.b64encode(chunk).decode("utf-8")`. -/
def appendEnvelope (chunk : List Nat) : Json :=
  Json.obj [("type", Json.str "input_audio_buffer.append"),
            ("audio", Json.str (String.mk (b64EncodeAux chunk)))]

/-- The body of `__listen` after `start_recording`, driven by the list of
device reads (`device`); the end of the list models the device read
returning the empty sentinel.  The `listen_event.wait()` gate is modelled
as currently passable (the loop only runs frames it is allowed to run;
gate interleaving is outside this model).  A truthy chunk is encoded and
sent; a send failure is caught by the `except` clause, which calls
`stop_recording`, and the `finally` clause calls `stop_recording` again; a
falsy chunk breaks the loop and the `finally` clause stops recording. -/
def listenLoopAux : AudioHandler → Transport → List (List Nat) → AudioHandler × Transport
  | h, t, [] => ((stop_recording h).1, t)
  | h, t, d :: rest =>
    let hr := record_chunk h d
    match hr.2 with
    | none => ((stop_recording hr.1).1, t)
    | some chunk =>
      if chunk = [] then ((stop_recording hr.1).1, t)
      else
        match sendEvent t (appendEnvelope chunk) with
        | Except.ok t' => listenLoopAux hr.1 t' rest
        | Except.error _ => ((stop_recording (stop_recording hr.1).1).1, t)

/-- `RealTimeAgent.__listen`: start recording, then run the send loop. -/
def listenRun (h : AudioHandler) (t : Transport) (device : List (List Nat)) :
    AudioHandler × Transport :=
  listenLoopAux (start_recording h) t device

/-! ## Base64 lemmas -/

theorem charToSextet_sextetToChar_fin :
    ∀ s : Fin 64, charToSextet (sextetToChar s.val) = some s.val := by decide

theorem sextetToChar_ne_pad_fin : ∀ s : Fin 64, sextetToChar s.val ≠ '=' := by
  decide

theorem charToSextet_sextetToChar {s : Nat} (h : s < 64) :
    charToSextet (sextetToChar s) = some s :=
  charToSextet_sextetToChar_fin ⟨s, h⟩

theorem sextetToChar_ne_pad {s : Nat} (h : s < 64) : sextetToChar s ≠ '=' :=
  sextetToChar_ne_pad_fin ⟨s, h⟩

/-- Decoding inverts encoding on genuine byte lists: the round-trip that
`__listen` (encode before send) and `__on_message` (decode after receive)
rely on. -/
theorem b64_roundtrip :
    ∀ bs : List Nat, (∀ x ∈ bs, x < 256) →
      b64DecodeAux (b64EncodeAux bs) = some bs := by
  intro bs
  induction bs using b64EncodeAux.induct with
  | case1 => intro _; simp [b64EncodeAux, b64DecodeAux]
  | case2 a =>
    intro h
    have ha : a < 256 := h a (by simp)
    have h1 : a / 4 < 64 := by omega
    have h2 : a % 4 * 16 < 64 := by omega
    simp only [b64EncodeAux, b64DecodeAux, charToSextet_sextetToChar h1,
      charToSextet_sextetToChar h2]
    simp
    omega
  | case3 a b =>
    intro h
    have ha : a < 256 := h a (by simp)
    have hb : b < 256 := h b (by simp)
    have h1 : a / 4 < 64 := by omega
    have h2 : a % 4 * 16 + b / 16 < 64 := by omega
    have h3 : b % 16 * 4 < 64 := by omega
    simp only [b64EncodeAux, b64DecodeAux, charToSextet_sextetToChar h1,
      charToSextet_sextetToChar h2, charToSextet_sextetToChar h3,
      if_neg (sextetToChar_ne_pad h3)]
    simp
    omega
  | case4 a b c rest ih =>
    intro h
    have ha : a < 256 := h a (by simp)
    have hb : b < 256 := h b (by simp)
    have hc : c < 256 := h c (by simp)
    have h1 : a / 4 < 64 := by omega
    have h2 : a % 4 * 16 + b / 16 < 64 := by omega
    have h3 : b % 16 * 4 + c / 64 < 64 := by omega
    have h4 : c % 64 < 64 := by omega
    have hrest : ∀ x ∈ rest, x < 256 := by
      intro x hx; exact h x (by simp [hx])
    simp only [b64EncodeAux, b64DecodeAux, charToSextet_sextetToChar h1,
      charToSextet_sextetToChar h2, charToSextet_sextetToChar h3,
      charToSextet_sextetToChar h4, if_neg (sextetToChar_ne_pad h3),
      if_neg (sextetToChar_ne_pad h4), ih hrest]
    have e1 : a / 4 * 4 + (a % 4 * 16 + b / 16) / 16 = a := by omega
    have e2 : (a % 4 * 16 + b / 16) % 16 * 16 + (b % 16 * 4 + c / 64) / 4 = b := by
      omega
    have e3 : (b % 16 * 4 + c / 64) % 4 * 64 + c % 64 = c := by omega
    simp [e1, e2, e3]

/-! ## Handler lemmas -/

/-- Updating `listenEventSet` to the value it already has is the identity
(`threading.Event.set` and `.clear` are idempotent). -/
theorem set_listen_eq (st : AgentState) (b : Bool) (h : st.listenEventSet = b) :
    { st with listenEventSet := b } = st := by
  cases st; simp_all

/-- The only messages that change the `listen_event` flag are
`response.done` (which sets it) and `input_audio_buffer.speech_stopped`
(which clears it); every other successfully handled message leaves the
flag as it was. -/
theorem onMessage_turn_effect (st st' : AgentState) (m : RawMessage)
    (hok : onMessage st m = Except.ok st') :
    (msgType m = some "response.done" ∧ st'.listenEventSet = true) ∨
    (msgType m = some "input_audio_buffer.speech_stopped" ∧ st'.listenEventSet = false) ∨
    st'.listenEventSet = st.listenEventSet := by
  cases m with
  | malformed s => simp [onMessage, jsonLoads] at hok
  | valid j =>
    simp only [onMessage, jsonLoads] at hok
    simp only [msgType]
    repeat' split at hok
    all_goals simp_all
    all_goals (rw [← hok]; try simp)

/-- Dispatching a `response.audio.delta` event whose payload is the base64
encoding of a byte list submits exactly that byte list to `play_audio`. -/
theorem onMessage_delta (st : AgentState) (d : List Nat) (hd : ∀ x ∈ d, x < 256) :
    onMessage st (RawMessage.valid (deltaEvent (String.mk (b64EncodeAux d)))) =
      Except.ok { st with sinkWrites := st.sinkWrites ++ [d] } := by
  have e : onMessage st (RawMessage.valid (deltaEvent (String.mk (b64EncodeAux d)))) =
      (match b64DecodeAux (b64EncodeAux d) with
       | some audio_data =>
           Except.ok { st with sinkWrites := st.sinkWrites ++ [audio_data] }
       | none => Except.error "binascii.Error: invalid base64 payload") := rfl
  rw [e, b64_roundtrip d hd]

/-- When `record_chunk` returns a chunk, it is the chunk the device read
produced. -/
theorem record_chunk_some {h : AudioHandler} {d c : List Nat}
    (hc : (record_chunk h d).2 = some c) : c = d := by
  by_cases hg : h.stream.isSome ∧ h.is_recording
  · simp [record_chunk, hg] at hc; exact hc.symm
  · simp [record_chunk, hg] at hc

/-- A successful `send` appends exactly the given envelope to the
transmitted sequence. -/
theorem sendEvent_ok {t t' : Transport} {e : Json}
    (hs : sendEvent t e = Except.ok t') : t'.sent = t.sent ++ [e] := by
  by_cases ho : t.connOpen
  · simp only [sendEvent, wsSend, if_pos ho] at hs
    injection hs with h
    rw [← h]
  · simp [sendEvent, wsSend, ho] at hs

/-- Every envelope the capture loop transmits beyond what was already sent
is the append envelope of one of the device chunks. -/
theorem listenLoopAux_sent_shape (device : List (List Nat)) :
    ∀ (h : AudioHandler) (t : Transport) (e : Json),
      e ∈ (listenLoopAux h t device).2.sent →
      e ∈ t.sent ∨ ∃ c ∈ device, e = appendEnvelope c := by
  induction device with
  | nil => intro h t e he; exact Or.inl he
  | cons d rest ih =>
    intro h t e he
    simp only [listenLoopAux] at he
    cases hrc : (record_chunk h d).2 with
    | none => simp only [hrc] at he; exact Or.inl he
    | some chunk =>
      simp only [hrc] at he
      by_cases hz : chunk = []
      · rw [if_pos hz] at he; exact Or.inl he
      · rw [if_neg hz] at he
        cases hse : sendEvent t (appendEnvelope chunk) with
        | error msg => rw [hse] at he; exact Or.inl he
        | ok t' =>
          rw [hse] at he
          rcases ih (record_chunk h d).1 t' e he with hmem | ⟨c, hc, hce⟩
          · rw [sendEvent_ok hse] at hmem
            rcases List.mem_append.mp hmem with hold | hnew
            · exact Or.inl hold
            · right
              refine ⟨d, by simp, ?_⟩
              rw [record_chunk_some hrc] at hnew
              simpa using hnew
          · exact Or.inr ⟨c, by simp [hc], hce⟩

/-- The handler's buffer after a run of `record_chunk` calls is its
starting buffer followed by the concatenation of all returned chunks. -/
theorem runRecord_buffer (ds : List (List Nat)) :
    ∀ h : AudioHandler,
      (runRecord h ds).1.audio_buffer =
        h.audio_buffer ++ ((runRecord h ds).2.filterMap id).flatten := by
  induction ds with
  | nil => intro h; simp [runRecord]
  | cons d rest ih =>
    intro h
    by_cases hg : h.stream.isSome ∧ h.is_recording
    · simp only [runRecord, record_chunk, if_pos hg]
      rw [ih]
      simp [List.append_assoc]
    · simp only [runRecord, record_chunk, if_neg hg]
      rw [ih]
      simp

/-! ## Claims -/

/-- Claim C1, counterexample: the claim says the controller is BLOCKED
immediately after any SpeechStarted event; in the code,
`input_audio_buffer.speech_started` only writes a log line, so from the
initial LISTENING state the handler returns the state unchanged and the
flag is still set (LISTENING, mic forwarding allowed), not BLOCKED. -/
theorem C1_counterexample :
    onMessage initState (RawMessage.valid (mkEvent "input_audio_buffer.speech_started")) =
      Except.ok initState ∧ initState.listenEventSet = true :=
  ⟨rfl, rfl⟩

/-- Claim C1, amended: for every sequence of inbound events, the
controller is BLOCKED (flag cleared, mic forwarding suppressed)
immediately after any SpeechStopped event and remains BLOCKED until the
next ResponseDone event; SpeechStarted never changes the turn state; a
repeated SpeechStopped while BLOCKED and a repeated ResponseDone while
LISTENING are no-ops. -/
theorem C1_amended :
    (∀ st st' : AgentState,
        onMessage st (RawMessage.valid (mkEvent "input_audio_buffer.speech_stopped")) =
          Except.ok st' → st'.listenEventSet = false) ∧
    (∀ (st st' : AgentState) (msgs : List RawMessage),
        st.listenEventSet = false →
        (∀ m ∈ msgs, msgType m ≠ some "response.done") →
        processMessages st msgs = Except.ok st' →
        st'.listenEventSet = false) ∧
    (∀ st : AgentState, st.listenEventSet = false →
        onMessage st (RawMessage.valid (mkEvent "input_audio_buffer.speech_stopped")) =
          Except.ok st) ∧
    (∀ st : AgentState, st.listenEventSet = true →
        onMessage st (RawMessage.valid (mkEvent "response.done")) = Except.ok st) ∧
    (∀ st : AgentState,
        onMessage st (RawMessage.valid (mkEvent "input_audio_buffer.speech_started")) =
          Except.ok st) := by
  refine ⟨?_, ?_, ?_, ?_, ?_⟩
  · intro st st' hok
    have : onMessage st (RawMessage.valid (mkEvent "input_audio_buffer.speech_stopped")) =
        Except.ok { st with listenEventSet := false } := rfl
    rw [this] at hok
    injection hok with h
    rw [← h]
  · intro st st' msgs hb hmsgs hrun
    induction msgs generalizing st with
    | nil =>
      simp only [processMessages] at hrun
      injection hrun with h
      rw [← h]; exact hb
    | cons m ms ih =>
      simp only [processMessages] at hrun
      cases hom : onMessage st m with
      | error e => rw [hom] at hrun; cases hrun
      | ok st1 =>
        rw [hom] at hrun
        have h1 : st1.listenEventSet = false := by
          rcases onMessage_turn_effect st st1 m hom with ⟨hd, _⟩ | ⟨_, hset⟩ | heq
          · exact absurd hd (hmsgs m (by simp))
          · exact hset
          · rw [heq]; exact hb
        exact ih st1 h1 (fun m' hm' => hmsgs m' (by simp [hm'])) hrun
  · intro st hb
    have : onMessage st (RawMessage.valid (mkEvent "input_audio_buffer.speech_stopped")) =
        Except.ok { st with listenEventSet := false } := rfl
    rw [this, set_listen_eq st false hb]
  · intro st hl
    have : onMessage st (RawMessage.valid (mkEvent "response.done")) =
        Except.ok { st with listenEventSet := true } := rfl
    rw [this, set_listen_eq st true hl]
  · intro st; rfl

/-- Claim C1, witness: a BLOCKED state stays BLOCKED across a concrete
run containing a SpeechStarted and a duplicate SpeechStopped. -/
theorem C1_amended_witness :
    ({ listenEventSet := false, sinkWrites := [], audioBuffer := [] } : AgentState).listenEventSet
      = false :=
  C1_amended.2.1 { listenEventSet := false, sinkWrites := [], audioBuffer := [] }
    { listenEventSet := false, sinkWrites := [], audioBuffer := [] }
    [RawMessage.valid (mkEvent "input_audio_buffer.speech_started"),
     RawMessage.valid (mkEvent "input_audio_buffer.speech_stopped")]
    rfl (by decide) rfl

/-- Claim C2, counterexample: the claim says the sequence
`[session.created, speech_started, speech_stopped]` leaves the controller
LISTENING; in the code it ends with `listen_event` cleared (BLOCKED),
because `speech_stopped` — not `speech_started` — is the event that
suppresses mic forwarding. -/
theorem C2_counterexample :
    processMessages initState
      [RawMessage.valid (mkEvent "session.created"),
       RawMessage.valid (mkEvent "input_audio_buffer.speech_started"),
       RawMessage.valid (mkEvent "input_audio_buffer.speech_stopped")] =
      Except.ok { listenEventSet := false, sinkWrites := [], audioBuffer := [] } ∧
    ({ listenEventSet := false, sinkWrites := [], audioBuffer := [] } : AgentState).listenEventSet
      ≠ true :=
  ⟨rfl, by decide⟩

/-- Claim C2, amended: the inbound sequence
`[session.created, speech_started, speech_stopped]` with no audio deltas
leaves the controller BLOCKED (flag cleared, mic forwarding suppressed)
and causes zero writes to the audio sink. -/
theorem C2_scenarioA :
    processMessages initState
      [RawMessage.valid (mkEvent "session.created"),
       RawMessage.valid (mkEvent "input_audio_buffer.speech_started"),
       RawMessage.valid (mkEvent "input_audio_buffer.speech_stopped")] =
      Except.ok { listenEventSet := false, sinkWrites := [], audioBuffer := [] } :=
  rfl

/-- Claim C3, counterexample: the claim says a malformed inbound message
is logged and discarded without raising; in the code `__on_message` calls
`json.loads(message)` with no try/except, so the decode error propagates
out of the handler. -/
theorem C3_counterexample :
    onMessage initState (RawMessage.malformed "not json") =
      Except.error "JSONDecodeError: not json" :=
  rfl

/-- Claim C3, amended: a malformed inbound message makes `__on_message`
raise the JSON decode error (error containment, if any, is up to the
websocket library's callback wrapper, not the handler); the error occurs
before any state mutation, so the handler state — including the turn flag
— is unchanged, as the error result carries no state update. -/
theorem C3_amended :
    ∀ (st : AgentState) (s : String),
      onMessage st (RawMessage.malformed s) = Except.error ("JSONDecodeError: " ++ s) :=
  fun _ _ => rfl

/-- Claim C4: dispatching any list of `response.audio.delta` events
followed by `response.audio.done` submits each delta's decoded base64
payload to the audio sink exactly once, in arrival order: the submitted
writes extend the previous ones by exactly the list of decoded fragments
(so their concatenation equals the concatenation of the fragments; no
fragment is dropped, duplicated, or reordered at submission). -/
theorem C4_delta_order (st st' : AgentState) (ds : List (List Nat))
    (hbytes : ∀ d ∈ ds, ∀ x ∈ d, x < 256)
    (hrun : processMessages st
        (ds.map (fun d => RawMessage.valid (deltaEvent (String.mk (b64EncodeAux d)))) ++
         [RawMessage.valid (mkEvent "response.audio.done")]) = Except.ok st') :
    st'.sinkWrites = st.sinkWrites ++ ds := by
  induction ds generalizing st with
  | nil =>
    simp only [List.map_nil, List.nil_append, processMessages] at hrun
    have e : onMessage st (RawMessage.valid (mkEvent "response.audio.done")) =
        Except.ok st := rfl
    rw [e] at hrun
    simp only [processMessages] at hrun
    injection hrun with h
    rw [← h]; simp
  | cons d rest ih =>
    simp only [List.map_cons, List.cons_append, processMessages] at hrun
    rw [onMessage_delta st d (hbytes d (by simp))] at hrun
    have := ih { st with sinkWrites := st.sinkWrites ++ [d] }
      (fun x hx => hbytes x (by simp [hx])) hrun
    rw [this]; simp

/-- Claim C4, witness: two concrete deltas (the bytes 72 and 105) arrive
and the sink receives exactly those two fragments in order. -/
theorem C4_delta_order_witness :
    ({ listenEventSet := true, sinkWrites := [[72], [105]], audioBuffer := [] } : AgentState).sinkWrites
      = initState.sinkWrites ++ [[72], [105]] :=
  C4_delta_order initState
    { listenEventSet := true, sinkWrites := [[72], [105]], audioBuffer := [] }
    [[72], [105]] (by decide) rfl

/-- Claim C5: an inbound message whose decoded "type" is a string outside
the recognized event types is recorded as unhandled (logged), does not
raise, and leaves the full handler state — including the turn flag —
unchanged. -/
theorem C5_unknown_type (st : AgentState) (t : String)
    (hu : t ∉ recognizedTypes) :
    onMessage st (RawMessage.valid (mkEvent t)) = Except.ok st := by
  simp only [recognizedTypes, List.mem_cons, List.not_mem_nil, or_false, not_or] at hu
  obtain ⟨h1, h2, h3, h4, h5, h6, h7, h8⟩ := hu
  simp only [onMessage, jsonLoads, mkEvent, Json.getField, lookupField]
  simp only [if_true]
  rw [if_neg h1, if_neg h2, if_neg h3, if_neg h4, if_neg h5, if_neg h6, if_neg h7,
    if_neg h8]

/-- Claim C5, witness: the unknown type "response.text.delta" is a no-op
on the initial state. -/
theorem C5_unknown_type_witness :
    onMessage initState (RawMessage.valid (mkEvent "response.text.delta")) =
      Except.ok initState :=
  C5_unknown_type initState "response.text.delta" (by decide)

/-- Claim C6: sending on a closed connection fails with a transport error
(not a silent drop), and the capture loop treats the failure as fatal: on
the first chunk it tries to send it stops recording (no further frames are
produced) and releases the capture stream, transmitting nothing. -/
theorem C6_transport_error (t : Transport) (e : Json) (h : AudioHandler)
    (d : List Nat) (rest : List (List Nat))
    (hclosed : t.connOpen = false) (hd : d ≠ []) :
    sendEvent t e = Except.error "TransportError: connection is not open" ∧
    (listenRun h t (d :: rest)).1.is_recording = false ∧
    (listenRun h t (d :: rest)).1.stream = some false ∧
    (listenRun h t (d :: rest)).2 = t := by
  have hsend : ∀ ev : Json,
      sendEvent t ev = Except.error "TransportError: connection is not open" := by
    intro ev; simp [sendEvent, wsSend, hclosed]
  have hrc : record_chunk (start_recording h) d =
      ({ start_recording h with
          audio_buffer := (start_recording h).audio_buffer ++ d }, some d) := by
    simp [record_chunk, start_recording, start_audio_stream]
  have hloop : listenRun h t (d :: rest) =
      ((stop_recording (stop_recording
        { start_recording h with
          audio_buffer := (start_recording h).audio_buffer ++ d }).1).1, t) := by
    simp only [listenRun, listenLoopAux, hrc, if_neg hd, hsend]
  refine ⟨hsend e, ?_, ?_, ?_⟩ <;> rw [hloop] <;> rfl

/-- Claim C6, witness: concrete closed transport, fresh handler, one
nonempty chunk. -/
theorem C6_transport_error_witness :
    sendEvent { connOpen := false, sent := [] } (mkEvent "session.update") =
      Except.error "TransportError: connection is not open" ∧
    (listenRun initAudioHandler { connOpen := false, sent := [] } [[1]]).1.is_recording = false ∧
    (listenRun initAudioHandler { connOpen := false, sent := [] } [[1]]).1.stream = some false ∧
    (listenRun initAudioHandler { connOpen := false, sent := [] } [[1]]).2 =
      { connOpen := false, sent := [] } :=
  C6_transport_error { connOpen := false, sent := [] } (mkEvent "session.update")
    initAudioHandler [1] [] rfl (by decide)

/-- Claim C7: `stop_recording` is idempotent — from every handler state,
stopping twice produces exactly the same state and return value as
stopping once — and after it recording is off and the capture stream is
released (either never opened, or stopped and closed). -/
theorem C7_stop_idempotent :
    (∀ h : AudioHandler, stop_recording (stop_recording h).1 = stop_recording h) ∧
    (∀ h : AudioHandler, (stop_recording h).1.is_recording = false) ∧
    (∀ h : AudioHandler,
        (stop_recording h).1.stream = none ∨ (stop_recording h).1.stream = some false) := by
  refine ⟨?_, ?_, ?_⟩
  · intro h; obtain ⟨s, b, c, r⟩ := h; cases s <;> rfl
  · intro h; obtain ⟨s, b, c, r⟩ := h; cases s <;> rfl
  · intro h; obtain ⟨s, b, c, r⟩ := h
    cases s
    · exact Or.inl rfl
    · exact Or.inr rfl

/-- Claim C8: the outbound audio envelope has exactly the shape
`{"type": "input_audio_buffer.append", "audio": base64_chunk}`, decoding
the audio field recovers exactly the raw chunk bytes (lossless
round-trip), and every envelope the capture loop transmits is such an
append envelope of one of the chunks read from the device. -/
theorem C8_append_envelope (chunk : List Nat) (hb : ∀ x ∈ chunk, x < 256) :
    appendEnvelope chunk =
      Json.obj [("type", Json.str "input_audio_buffer.append"),
                ("audio", Json.str (String.mk (b64EncodeAux chunk)))] ∧
    b64DecodeAux (String.mk (b64EncodeAux chunk)).toList = some chunk ∧
    (∀ (h : AudioHandler) (t : Transport) (device : List (List Nat)) (e : Json),
        e ∈ (listenRun h t device).2.sent →
        e ∈ t.sent ∨ ∃ c ∈ device, e = appendEnvelope c) := by
  refine ⟨rfl, ?_, ?_⟩
  · show b64DecodeAux (b64EncodeAux chunk) = some chunk
    exact b64_roundtrip chunk hb
  · intro h t device e he
    exact listenLoopAux_sent_shape device (start_recording h) t e he

/-- Claim C8, witness: the chunk `[0, 255]` round-trips through its
envelope's audio field. -/
theorem C8_append_envelope_witness :
    b64DecodeAux (String.mk (b64EncodeAux [0, 255])).toList = some [0, 255] :=
  (C8_append_envelope [0, 255] (by decide)).2.1

/-- Claim C9 (code bug): the claim — and the spec — require `play_audio`
to render buffers in submission order, but each call starts its own
detached, unsynchronized playback thread, so the scheduler may run them
out of order: after submitting `[0]` then `[1]`, a legal two-step schedule
renders `[1]` before `[0]`. -/
theorem C9_out_of_order :
    ∃ s1 s2 : SinkModel,
      PlaybackStep (play_audio (play_audio { pending := [], played := [] } [0]) [1]) s1 ∧
      PlaybackStep s1 s2 ∧
      s2.pending = [] ∧ s2.played = [[1], [0]] ∧ ([[1], [0]] : List (List Nat)) ≠ [[0], [1]] := by
  refine ⟨{ pending := [[0]], played := [[1]] }, { pending := [], played := [[1], [0]] },
    ?_, ?_, rfl, rfl, by decide⟩
  · exact PlaybackStep.run { pending := [[0], [1]], played := [] } 1 (by decide)
  · exact PlaybackStep.run { pending := [[0]], played := [[1]] } 0 (by decide)

/-- Claim C10: `start_recording` resets the buffer; `record_chunk` appends
exactly what it returns; after a start, the buffer is the concatenation,
in call order, of every chunk returned since; `stop_recording` returns the
buffer unchanged; and after `stop_recording` the recording flag is off so
`record_chunk` returns the `None` sentinel and leaves the state fixed
(hence every later call returns `None` too, until the next start). -/
theorem C10_buffer_invariant :
    (∀ h : AudioHandler, (start_recording h).audio_buffer = []) ∧
    (∀ (h : AudioHandler) (d : List Nat),
        (record_chunk h d).1.audio_buffer =
          h.audio_buffer ++ ((record_chunk h d).2.getD [])) ∧
    (∀ (h : AudioHandler) (ds : List (List Nat)),
        (runRecord (start_recording h) ds).1.audio_buffer =
          ((runRecord (start_recording h) ds).2.filterMap id).flatten) ∧
    (∀ h : AudioHandler, (stop_recording h).2 = h.audio_buffer ∧
        (stop_recording h).1.audio_buffer = h.audio_buffer) ∧
    (∀ (h : AudioHandler) (d : List Nat),
        record_chunk (stop_recording h).1 d = ((stop_recording h).1, none)) := by
  refine ⟨fun h => rfl, ?_, ?_, ?_, ?_⟩
  · intro h d
    by_cases hg : h.stream.isSome ∧ h.is_recording
    · simp [record_chunk, hg]
    · simp [record_chunk, hg]
  · intro h ds
    rw [runRecord_buffer ds (start_recording h)]
    rfl
  · intro h; obtain ⟨s, b, c, r⟩ := h
    cases s <;> exact ⟨rfl, rfl⟩
  · intro h d; obtain ⟨s, b, c, r⟩ := h
    cases s <;> rfl
